import Mathlib

/-!
# Verification of the SOFAI-LM metacognitive control loop

Shallow embedding of the core control loop of the SOFAI-LM repository
(`src/core/metacognitive_module.py`) together with the domain collaborators
relevant to the claims under scrutiny:

* the graph-coloring solution parser (`src/domains/graph_coloring/solution_parser.py`)
  and the graph-coloring S2 solver (`src/domains/graph_coloring/graph_coloring_domain.py`);
* the code-debugging solution parser (`src/domains/code_debugging/solution_parser.py`)
  and the LeetCode validator (`src/domains/code_debugging/validator.py`);
* the configuration surface of `MCModule` (`src/core/metacognitive_module.py`,
  `src/main.py`).

The agent client (`core/llm_solver.py`, a remote call) is modelled as an
arbitrary total function from conversation histories to response text, and
wall-clock durations as abstract per-call duration functions; `total_time`
(pure wall clock) is not modelled.  The files `core/episodic_memory.py` and
`core/improvement_trend_evaluator.py` are imported by the controller but are
not present under `src/`; those two collaborators are modelled from the spec
(see the doc comments on their definitions).
-/

/-- One turn of a conversation, mirroring the
`{"role": ..., "content": ...}` message dicts of `metacognitive_module.py`. -/
structure Msg where
  role : String
  content : String
deriving Repr, DecidableEq

/-- Modelled from the spec: `core/improvement_trend_evaluator.py` is absent
from `src/`.  Per spec §4.3 and §3 (AttemptHistory), the evaluator holds an
ordered sequence of feedback samples, most-recent-last, scoped to one solve
call. -/
structure ImprovementTrendEvaluator (Feedback : Type) where
  history : List Feedback
deriving Repr, DecidableEq

/-- Modelled from the spec: `update(feedback_sample)` appends the sample to
the attempt history (spec §4.3). -/
def ImprovementTrendEvaluator.update_feedback (t : ImprovementTrendEvaluator F) (fb : F) :
    ImprovementTrendEvaluator F :=
  ⟨t.history ++ [fb]⟩

/-- Modelled from the spec: `no_improvement()` returns `false` when fewer than
two samples exist; otherwise it compares the latest sample against the
previous one through a domain-agnostic "badness" measure and returns `true`
iff the distance shows no measurable reduction in errors, i.e. the latest
badness is not strictly smaller than the previous one (spec §4.3). -/
def ImprovementTrendEvaluator.get_no_improvement_flag (measure : F → Nat)
    (t : ImprovementTrendEvaluator F) : Bool :=
  match t.history.reverse with
  | latest :: previous :: _ => decide (measure previous ≤ measure latest)
  | _ => false

/-- Modelled from the spec: `core/episodic_memory.py` is absent from `src/`.
`add_memory` appends one (problem representation, solution representation)
pair to the unbounded append-only log (spec §4.2). -/
def add_memory (memory : List (String × String)) (problem_repr solution_repr : String) :
    List (String × String) :=
  memory ++ [(problem_repr, solution_repr)]

/-- The collaborators consumed by `MCModule.solve`, bundled.  The domain
methods mirror `core/domain.py`; `generate_response` is the S1 agent client
(`LLMSolver.generate_response`, an external call, hence an arbitrary total
function); `run_s2_solver` already has the S2 agent client baked in (the
Python code passes `self.s2_llm_solver` to it).  `retrieve_similar` and
`feedback_measure` are modelled from the spec because `core/episodic_memory.py`
and `core/improvement_trend_evaluator.py` are absent from `src/`.
`s1_duration k` is the abstract wall-clock duration of the k-th S1 call and
`s2_duration` that of the single S2 invocation. -/
structure SolveEnv (Problem Solution Feedback Meta : Type) where
  get_problem_representation : Problem → String
  build_prompt : Problem → Option (List (String × String)) → String
  parse_solution : String → Solution
  validate_solution : Problem → Solution → Bool × Feedback
  format_feedback : Feedback → String
  format_solution_for_memory : Solution → String
  run_s2_solver : Problem → Solution × Meta
  generate_response : List Msg → String
  retrieve_similar : List (String × String) → String → List (String × String)
  feedback_measure : Feedback → Nat
  s1_duration : Nat → Nat
  s2_duration : Nat

/-- The dict returned by `MCModule.solve` (lines 176-185 of
`metacognitive_module.py`), extended with the final episodic memory and the
counts of agent-client calls actually issued, so that the memory effect and
the call budget are part of the observable outcome.  `total_time` (pure wall
clock) is not modelled. -/
structure SolveResult (Solution : Type) where
  solved : Bool
  solution : Option Solution
  s1_solved : Bool
  s2_solved : Bool
  iterations : Nat
  s1_time : Nat
  s2_time : Nat
  memory : List (String × String)
  s1_calls : Nat
  s2_calls : Nat
deriving Repr

/-- The mutable state carried across iterations of the refinement loop:
the conversation `messages`, the trend evaluator, and the accumulated S1
time. -/
structure LoopState (Feedback : Type) where
  messages : List Msg
  trend : ImprovementTrendEvaluator Feedback
  s1_time : Nat
deriving Repr, DecidableEq

/-- Outcome of one iteration of the `while` loop of `MCModule.solve`:
S1 accepted (`break` at line 123), escalation to S2 (`break` at line 156),
or continue refining with a grown conversation. -/
inductive IterOut (Solution Feedback : Type) where
  | s1Done (solution : Solution) (s1_time : Nat)
  | s2Escalate (s1_time : Nat)
  | next (st : LoopState Feedback)
deriving Repr, DecidableEq

/-- One iteration of the S1 refinement loop (lines 96-161 of
`metacognitive_module.py`), entered with `iteration` already incremented:
call the S1 agent on the conversation, parse, validate; on success exit with
the solution; otherwise update the trend evaluator and either escalate (last
allowed iteration, or no improvement) or append the response and the
formatted feedback to the conversation and continue. -/
def iterStep (env : SolveEnv P S F M) (problem : P) (max_iterations iteration : Nat)
    (st : LoopState F) : IterOut S F :=
  let llm_response := env.generate_response st.messages
  let s1_time := st.s1_time + env.s1_duration iteration
  let solution := env.parse_solution llm_response
  let vr := env.validate_solution problem solution
  if vr.1 then
    .s1Done solution s1_time
  else
    let trend := st.trend.update_feedback vr.2
    if iteration == max_iterations || trend.get_no_improvement_flag env.feedback_measure then
      .s2Escalate s1_time
    else
      .next ⟨st.messages ++
          [⟨"assistant", llm_response⟩,
           ⟨"user", "Feedback: " ++ env.format_feedback vr.2⟩],
        trend, s1_time⟩

/-- The `while iteration < max_iterations` loop of `MCModule.solve`, by
recursion on the remaining fuel `max_iterations - iteration`.  The base case
is the loop condition failing (only reachable from `solve` when
`max_iterations = 0`, since once inside, the final iteration always breaks):
then nothing was solved and `solution` is still `None`.  On an S1 or S2 exit
the accepted solution's representation is appended to episodic memory
together with the problem representation. -/
def solveLoop (env : SolveEnv P S F M) (problem : P) (max_iterations : Nat)
    (mem : List (String × String)) : Nat → Nat → LoopState F → SolveResult S
  | 0, iteration, st =>
    { solved := false, solution := none, s1_solved := false, s2_solved := false,
      iterations := iteration, s1_time := st.s1_time, s2_time := 0,
      memory := mem, s1_calls := iteration, s2_calls := 0 }
  | fuel + 1, iteration, st =>
    match iterStep env problem max_iterations (iteration + 1) st with
    | .s1Done solution s1_time =>
      { solved := true, solution := some solution, s1_solved := true, s2_solved := false,
        iterations := iteration + 1, s1_time := s1_time, s2_time := 0,
        memory := add_memory mem (env.get_problem_representation problem)
          (env.format_solution_for_memory solution),
        s1_calls := iteration + 1, s2_calls := 0 }
    | .s2Escalate s1_time =>
      let solution := (env.run_s2_solver problem).1
      { solved := true, solution := some solution, s1_solved := false, s2_solved := true,
        iterations := iteration + 1, s1_time := s1_time, s2_time := env.s2_duration,
        memory := add_memory mem (env.get_problem_representation problem)
          (env.format_solution_for_memory solution),
        s1_calls := iteration + 1, s2_calls := 1 }
    | .next st1 => solveLoop env problem max_iterations mem fuel (iteration + 1) st1

/-- The state entering iteration 1 (lines 74-88 of `metacognitive_module.py`):
a fresh trend evaluator, and a conversation holding the single initial user
prompt, built with episodic examples exactly when the memory is non-empty. -/
def initState (env : SolveEnv P S F M) (problem : P) (memory : List (String × String)) :
    LoopState F :=
  let problem_repr := env.get_problem_representation problem
  let episodic_examples : Option (List (String × String)) :=
    if memory.isEmpty then none else some (env.retrieve_similar memory problem_repr)
  ⟨[⟨"user", env.build_prompt problem episodic_examples⟩], ⟨[]⟩, 0⟩

/-- `MCModule.solve` (lines 47-185 of `metacognitive_module.py`), run against
the episodic memory `memory` accumulated by earlier calls.  The `verbose`
flag only controls printing and is not modelled. -/
def MCModule.solve (env : SolveEnv P S F M) (problem : P)
    (memory : List (String × String)) (max_iterations : Nat) : SolveResult S :=
  solveLoop env problem max_iterations memory max_iterations 0
    (initState env problem memory)

/-- The loop state entering iteration `k + 1`, when the refinement loop is
still running at that point: `stateAt 0` is the initial state, and the state
advances only while `iterStep` keeps choosing to refine. -/
def stateAt (env : SolveEnv P S F M) (problem : P) (memory : List (String × String))
    (max_iterations : Nat) : Nat → Option (LoopState F)
  | 0 => some (initState env problem memory)
  | k + 1 =>
    match stateAt env problem memory max_iterations k with
    | none => none
    | some st =>
      match iterStep env problem max_iterations (k + 1) st with
      | .next st1 => some st1
      | _ => none

/-- The ASCII whitespace set of Python's `str.strip` (space, tab, newline,
carriage return, vertical tab, form feed). -/
def isPySpace (c : Char) : Bool :=
  c = ' ' || c = '\t' || c = '\n' || c = '\r' || c.toNat = 11 || c.toNat = 12

/-- `str.strip()` on the underlying character list. -/
def stripChars (cs : List Char) : List Char :=
  ((cs.dropWhile isPySpace).reverse.dropWhile isPySpace).reverse

/-- Python's `str.strip()`. -/
def pyStrip (s : String) : String := String.mk (stripChars s.data)

/-- Occurrence-by-occurrence, left-to-right splitting of a character list on
a non-empty separator, as Python's `str.split(sep)` does; the fuel bounds the
scan and `fuel = cs.length` is always enough. -/
def splitOnAux (sep : List Char) : Nat → List Char → List Char → List (List Char)
  | 0, cs, acc => [acc.reverse ++ cs]
  | fuel + 1, cs, acc =>
    match cs with
    | [] => [acc.reverse]
    | c :: rest =>
      if sep.isPrefixOf (c :: rest) then
        acc.reverse :: splitOnAux sep fuel ((c :: rest).drop sep.length) []
      else
        splitOnAux sep fuel rest (c :: acc)

/-- Python's `str.split(sep)` for a non-empty separator. -/
def pySplit (s sep : String) : List String :=
  (splitOnAux sep.data s.data.length s.data []).map String.mk

namespace GraphColoring

/-- ASCII approximation of the regex class `\w` = `[A-Za-z0-9_]` used by
`solution_parser.py`. -/
def isWordChar (c : Char) : Bool := c.isAlpha || c.isDigit || c = '_'

/-- Value of a non-empty digit string, as `int(...)` computes it. -/
def digitsToNat (ds : List Char) : Nat :=
  ds.foldl (fun n c => n * 10 + (c.toNat - '0'.toNat)) 0

/-- `re.compile(r"\((\w+)\s+(\d+)\)").match(line)` from
`src/domains/graph_coloring/solution_parser.py`: anchored at the start of the
(already stripped) line, an opening parenthesis, a non-empty run of word
characters, non-empty whitespace, a non-empty run of digits, and a closing
parenthesis; anything may follow. -/
def parseLine (line : String) : Option (String × Nat) :=
  match line.toList with
  | '(' :: rest =>
    let word := rest.takeWhile isWordChar
    let rest1 := rest.dropWhile isWordChar
    if word.isEmpty then none
    else
      let sp := rest1.takeWhile Char.isWhitespace
      let rest2 := rest1.dropWhile Char.isWhitespace
      if sp.isEmpty then none
      else
        let digits := rest2.takeWhile Char.isDigit
        let rest3 := rest2.dropWhile Char.isDigit
        if digits.isEmpty then none
        else
          match rest3 with
          | ')' :: _ => some (String.mk word, digitsToNat digits)
          | _ => none
  | _ => none

/-- Python-dict assignment `coloring_assignment[vertex] = int(color)` on an
insertion-ordered association list: overwrite in place if the key exists,
else append. -/
def dictInsert (m : List (String × Nat)) (k : String) (v : Nat) : List (String × Nat) :=
  if m.any (fun e => e.1 == k) then
    m.map (fun e => if e.1 == k then (k, v) else e)
  else
    m ++ [(k, v)]

/-- Processing of one line of the response in `parse_solution`. -/
def applyLine (acc : List (String × Nat)) (line : String) : List (String × Nat) :=
  match parseLine line with
  | some vc => dictInsert acc vc.1 vc.2
  | none => acc

/-- `parse_solution` from `src/domains/graph_coloring/solution_parser.py`:
strip the response, split on newlines, strip each line, and collect every
`(vertex color)` match into an insertion-ordered dict.  Returns the empty
dict when no line matches. -/
def parse_solution (response : String) : List (String × Nat) :=
  ((pySplit (pyStrip response) "\n").map pyStrip).foldl applyLine []

/-- Container mirroring `GraphColoringProblem` of
`src/domains/graph_coloring/graph_coloring_domain.py` (the fields produced by
`parse_graph`; the DIMACS file itself is not modelled, only the parsed data). -/
structure GraphColoringProblem where
  file_path : String
  min_colors : Nat
  graph_repr : String
  num_edges : String
  num_vertices : String
  edges : List String
  vertices : List String
deriving Repr, DecidableEq

/-- `GraphColoringDomain.build_prompt`: delegates to `prompt_generator` with
the graph representation, the color bound and the optional episodic examples.
`prompt_generator` lives in `domains/graph_coloring/prompt_builder.py`, which
is absent from `src/`, so it is taken as an explicit function argument `pg`
(modelled from the spec: prompt construction is an out-of-scope collaborator,
spec §1, §6). -/
def build_prompt (pg : String → Nat → Option (List (String × String)) → String)
    (problem : GraphColoringProblem)
    (episodic_examples : Option (List (String × String))) : String :=
  pg problem.graph_repr problem.min_colors episodic_examples

/-- `max(solution.values()) if solution else 0` from `run_s2_solver`. -/
def maxColorUsed (solution : List (String × Nat)) : Nat :=
  match solution with
  | [] => 0
  | _ => (solution.map Prod.snd).foldl Nat.max 0

/-- `GraphColoringDomain.run_s2_solver` (lines 129-155 of
`graph_coloring_domain.py`): build the same prompt as S1 but with
`episodic_examples=None`, send it as a single user turn to the S2 agent
client, parse the response with the same solution parser, and report the
maximum color used as metadata. -/
def run_s2_solver (pg : String → Nat → Option (List (String × String)) → String)
    (problem : GraphColoringProblem)
    (generate_response : List Msg → String) : List (String × Nat) × Nat :=
  let initial_prompt := build_prompt pg problem none
  let llm_response := generate_response [⟨"user", initial_prompt⟩]
  let solution := parse_solution llm_response
  (solution, maxColorUsed solution)

end GraphColoring

namespace CodeDebugging

/-- `sub in s` for strings, via occurrence counting with `splitOn`. -/
def containsSub (s sub : String) : Bool := decide (2 ≤ (pySplit s sub).length)

/-- Leftmost-match extraction for the regexes
`open\s*(.*?)\s*close` (with `re.DOTALL`) of `solution_parser.py`: the text
strictly between the first occurrence of `openTag` and the first occurrence
of `closeTag` after it, stripped (the call sites strip the group, and the
lazy group plus surrounding `\s*` make that the matched text). -/
def extractBetween (s openTag closeTag : String) : Option String :=
  match pySplit s openTag with
  | [] => none
  | [_] => none
  | _ :: rest =>
    let after := String.intercalate openTag rest
    match pySplit after closeTag with
    | [] => none
    | [_] => none
    | before :: _ => some (pyStrip before)

/-- `parse_fixed_code` from `src/domains/code_debugging/solution_parser.py`:
try `<code>...</code>`, then a ```` ```python ```` fenced block, then any
```` ``` ```` fenced block, and as a last resort return the whole response
stripped.  Total: it always returns a string. -/
def parse_fixed_code (llm_response : String) : String :=
  match extractBetween llm_response "<code>" "</code>" with
  | some fixed_code => fixed_code
  | none =>
    match (if containsSub llm_response "```python" then
             extractBetween llm_response "```python" "```"
           else none) with
    | some code => code
    | none =>
      match (if containsSub llm_response "```" then
               extractBetween llm_response "```" "```"
             else none) with
      | some code => code
      | none => pyStrip llm_response

/-- Result dict of `LeetCodeTester.test`; only `status_msg` is inspected by
the validator (`submission_result.get('status_msg')`, `None` when absent),
the rest of the dict is opaque payload. -/
structure SubmissionResult where
  status_msg : Option String
  payload : List (String × String)
deriving Repr, DecidableEq

/-- Outcome of the external call `tester.test(...)`: a normal
`(reward, submission_result)` pair, or a raised exception carrying its
message. -/
inductive TestOutcome where
  | ok (reward : Bool) (submission_result : SubmissionResult)
  | raised (msg : String)
deriving Repr, DecidableEq

/-- The external state `validate_code_with_leetcode` runs against: whether a
tester singleton is already cached (`_tester_instance is not None`), whether
`LEETCODE_SESSION` is set, whether the `LeetCodeTester` import succeeded, and
the behaviour of the external judge.  The rate-limiting cooldown only sleeps
and is not modelled. -/
structure LeetCodeWorld where
  tester_cached : Bool
  session_set : Bool
  tester_imported : Bool
  test : String → String → String → TestOutcome

/-- Feedback handed back to the controller by the validator: either a real
submission result, or the synthesized dict
`{"error": ..., "status_msg": ...}` built in the `except` clauses. -/
inductive CDFeedback where
  | result (submission_result : SubmissionResult)
  | errorDict (error : String) (status_msg : String)
deriving Repr, DecidableEq

/-- Message of the `EnvironmentError` raised by `get_leetcode_tester`. -/
def envErrorMessage : String :=
  "LEETCODE_SESSION environment variable not set. Please set it to your LeetCode session cookie value."

/-- Message of the `ImportError` raised by `get_leetcode_tester`. -/
def importErrorMessage : String :=
  "LeetCodeTester could not be imported from DebugBench"

/-- Outcome of `get_leetcode_tester`: a tester, or one of its two raises. -/
inductive GetTesterOutcome where
  | tester
  | envError
  | importError
deriving Repr, DecidableEq

/-- `get_leetcode_tester` from `src/domains/code_debugging/validator.py`: if
a singleton is cached, return it; otherwise raise `EnvironmentError` when
`LEETCODE_SESSION` is unset, raise `ImportError` when the tester class could
not be imported, else construct and return the tester. -/
def get_leetcode_tester (w : LeetCodeWorld) : GetTesterOutcome :=
  if w.tester_cached then .tester
  else if !w.session_set then .envError
  else if !w.tester_imported then .importError
  else .tester

/-- `validate_code_with_leetcode` (lines 46-87 of
`src/domains/code_debugging/validator.py`).  The whole body runs inside
`try/except`: `EnvironmentError` is mapped to
`(False, {"error": str(e), "status_msg": "Environment Error"})`, any other
exception (including the `ImportError` and whatever `tester.test` raises) to
`(False, {"error": str(e), "status_msg": "Validation Error"})`.  On a normal
judge answer, validity is `reward and status_msg == 'Accepted'`. -/
def validate_code_with_leetcode (w : LeetCodeWorld)
    (code task_id language : String) : Bool × CDFeedback :=
  match get_leetcode_tester w with
  | .envError => (false, .errorDict envErrorMessage "Environment Error")
  | .importError => (false, .errorDict importErrorMessage "Validation Error")
  | .tester =>
    match w.test code task_id language with
    | .raised e => (false, .errorDict e "Validation Error")
    | .ok reward submission_result =>
      (reward && decide (submission_result.status_msg = some "Accepted"),
       .result submission_result)

end CodeDebugging

namespace MCModuleSig

/-- The parameters of `MCModule.__init__` (besides `self`), in order, each
paired with whether it has a default value
(`src/core/metacognitive_module.py`, lines 25-31). -/
def initParams : List (String × Bool) :=
  [("domain", false), ("llm_model", true), ("max_iterations", true), ("s2_llm_model", true)]

/-- The parameters of `MCModule.solve` (besides `self`), in order, each
paired with whether it has a default value (line 47). -/
def solveParams : List (String × Bool) :=
  [("problem", false), ("verbose", true)]

/-- Default of `llm_model` in `MCModule.__init__`. -/
def llm_model_default : String := "mistral"

/-- Default of `max_iterations` in `MCModule.__init__`. -/
def max_iterations_default : Nat := 5

/-- Default of `verbose` in `MCModule.solve`. -/
def verbose_default : Bool := true

/-- A parameter name that would denote a memory-examples setting: one whose
name mentions examples or memory. -/
def mentionsMemoryExamples (s : String) : Bool :=
  CodeDebugging.containsSub s "example" || CodeDebugging.containsSub s "memor"

end MCModuleSig

/-- A concrete environment over trivial types whose validation accepts every
solution; used to witness the S1-success theorems. -/
def envAccept : SolveEnv Unit Nat Nat Unit where
  get_problem_representation := fun _ => "p"
  build_prompt := fun _ e => match e with | none => "prompt" | some _ => "prompt with examples"
  parse_solution := fun s => s.length
  validate_solution := fun _ _ => (true, 0)
  format_feedback := fun f => toString f
  format_solution_for_memory := fun s => toString s
  run_s2_solver := fun _ => (7, ())
  generate_response := fun _ => "resp"
  retrieve_similar := fun m _ => m.take 3
  feedback_measure := fun f => f
  s1_duration := fun _ => 0
  s2_duration := 4

/-- A concrete environment over trivial types whose validation rejects every
solution; used to witness the escalation theorems. -/
def envReject : SolveEnv Unit Nat Nat Unit where
  get_problem_representation := fun _ => "p"
  build_prompt := fun _ e => match e with | none => "prompt" | some _ => "prompt with examples"
  parse_solution := fun s => s.length
  validate_solution := fun _ _ => (false, 3)
  format_feedback := fun f => toString f
  format_solution_for_memory := fun s => toString s
  run_s2_solver := fun _ => (7, ())
  generate_response := fun _ => "resp"
  retrieve_similar := fun m _ => m.take 3
  feedback_measure := fun f => f
  s1_duration := fun _ => 0
  s2_duration := 4

/-- A concrete graph-coloring problem instance for witnesses. -/
def gcProblem : GraphColoring.GraphColoringProblem where
  file_path := "graph.col"
  min_colors := 3
  graph_repr := "p edge 3 2\ne 1 2\ne 2 3"
  num_edges := "2"
  num_vertices := "3"
  edges := ["1 2", "2 3"]
  vertices := ["1", "2", "3"]

/-- A concrete environment wired to the real graph-coloring solution parser,
whose agent produces unparseable text and whose validator reports the
synthesized "no solution found" feedback; used to witness the parse-fault
theorem. -/
def gcEnv : SolveEnv GraphColoring.GraphColoringProblem (List (String × Nat)) String Unit where
  get_problem_representation := fun q => q.graph_repr
  build_prompt := fun q _ => q.graph_repr
  parse_solution := GraphColoring.parse_solution
  validate_solution := fun _ _ => (false, "no solution found")
  format_feedback := fun f => f
  format_solution_for_memory := fun sol => String.intercalate "\n" (sol.map (fun vc => "(" ++ vc.1 ++ " " ++ toString vc.2 ++ ")"))
  run_s2_solver := fun _ => ([("1", 1)], ())
  generate_response := fun _ => "I cannot color this graph"
  retrieve_similar := fun m _ => m.take 3
  feedback_measure := fun f => f.length
  s1_duration := fun _ => 0
  s2_duration := 0

/-- A LeetCode world with no cached tester and no session cookie. -/
def worldNoSession : CodeDebugging.LeetCodeWorld where
  tester_cached := false
  session_set := false
  tester_imported := true
  test := fun _ _ _ => .raised "unreachable"

/-- A LeetCode world where the tester import failed. -/
def worldNoImport : CodeDebugging.LeetCodeWorld where
  tester_cached := false
  session_set := true
  tester_imported := false
  test := fun _ _ _ => .raised "unreachable"

/-- A LeetCode world where the judge call itself raises. -/
def worldRaises : CodeDebugging.LeetCodeWorld where
  tester_cached := false
  session_set := true
  tester_imported := true
  test := fun _ _ _ => .raised "connection timeout"


section Lemmas

variable {P S F M : Type}

/-- On its final allowed iteration (`iteration = max_iterations`) the loop
body never chooses to keep refining: the escalation test
`iteration == max_iterations or no_improvement` short-circuits to true, so
the body exits with S1 success or with escalation. -/
theorem iterStep_at_max_not_next (env : SolveEnv P S F M) (problem : P) (n : Nat)
    (st st1 : LoopState F) :
    iterStep env problem n n st ≠ IterOut.next st1 := by
  unfold iterStep
  simp only [beq_self_eq_true, Bool.true_or]
  split <;> simp

/-- Running `solve` is the same as running the loop from any still-running
intermediate state: if the loop is still refining when entering iteration
`k + 1`, the overall result is the loop's result from that state. -/
theorem solve_eq_solveLoop_of_stateAt (env : SolveEnv P S F M) (problem : P)
    (memory : List (String × String)) (n : Nat) :
    ∀ k st, stateAt env problem memory n k = some st → k < n →
      MCModule.solve env problem memory n = solveLoop env problem n memory (n - k) k st := by
  intro k
  induction k with
  | zero =>
    intro st hst _
    simp only [stateAt, Option.some.injEq] at hst
    subst hst
    rfl
  | succ k ih =>
    intro st hst hk
    simp only [stateAt] at hst
    have hkn : k < n := Nat.lt_of_succ_lt hk
    have hsub : n - k = (n - (k + 1)) + 1 := by omega
    cases h1 : stateAt env problem memory n k with
    | none => simp only [h1] at hst; exact Option.noConfusion hst
    | some st0 =>
      cases h2 : iterStep env problem n (k + 1) st0 with
      | s1Done s s1t => simp only [h1, h2] at hst; exact Option.noConfusion hst
      | s2Escalate s1t => simp only [h1, h2] at hst; exact Option.noConfusion hst
      | next st1 =>
        simp only [h1, h2, Option.some.injEq] at hst
        subst hst
        rw [ih st0 h1 hkn, hsub]
        simp only [solveLoop, h2]

/-- Branch invariants of the loop, by induction on the fuel: the two tiers
are mutually exclusive, `solved` is their disjunction, `s2_time` stays 0
unless S2 ran, iterations count both entries and S1 calls, at most one S2
call is made, and at most `fuel` further iterations happen. -/
theorem solveLoop_invariants (env : SolveEnv P S F M) (problem : P) (n : Nat)
    (mem : List (String × String)) :
    ∀ fuel iteration st,
      (solveLoop env problem n mem fuel iteration st).s1_solved = true →
        (solveLoop env problem n mem fuel iteration st).s2_solved = false := by
  intro fuel
  induction fuel with
  | zero => intro iteration st h; simp [solveLoop] at h
  | succ fuel ih =>
    intro iteration st h
    cases h2 : iterStep env problem n (iteration + 1) st with
    | s1Done s s1t => simp [solveLoop, h2]
    | s2Escalate s1t => simp [solveLoop, h2] at h
    | next st1 =>
      simp only [solveLoop, h2] at h ⊢
      exact ih (iteration + 1) st1 h

end Lemmas

section StepLemmas

variable {P S F M : Type}

/-- Evaluation of one loop iteration when validation accepts the parsed
solution: the loop exits with that solution as the S1 result. -/
theorem iterStep_valid_eq (env : SolveEnv P S F M) (problem : P) (n k : Nat)
    (st : LoopState F)
    (h : (env.validate_solution problem
      (env.parse_solution (env.generate_response st.messages))).1 = true) :
    iterStep env problem n k st =
      IterOut.s1Done (env.parse_solution (env.generate_response st.messages))
        (st.s1_time + env.s1_duration k) := by
  unfold iterStep
  simp only [h, if_true]

/-- Evaluation of one loop iteration when validation rejects and the
escalation test (last allowed iteration, or no improvement) fires: the loop
exits towards S2. -/
theorem iterStep_invalid_escalate_eq (env : SolveEnv P S F M) (problem : P) (n k : Nat)
    (st : LoopState F)
    (h : (env.validate_solution problem
      (env.parse_solution (env.generate_response st.messages))).1 = false)
    (hesc : (k == n || (st.trend.update_feedback
        (env.validate_solution problem
          (env.parse_solution (env.generate_response st.messages))).2).get_no_improvement_flag
        env.feedback_measure) = true) :
    iterStep env problem n k st = IterOut.s2Escalate (st.s1_time + env.s1_duration k) := by
  unfold iterStep
  simp only [h, if_false, hesc, if_true, Bool.false_eq_true]

/-- Evaluation of one loop iteration when validation rejects and the
escalation test does not fire: the loop continues with the response and the
formatted feedback appended to the conversation and the feedback recorded by
the trend evaluator. -/
theorem iterStep_invalid_next_eq (env : SolveEnv P S F M) (problem : P) (n k : Nat)
    (st : LoopState F)
    (h : (env.validate_solution problem
      (env.parse_solution (env.generate_response st.messages))).1 = false)
    (hesc : (k == n || (st.trend.update_feedback
        (env.validate_solution problem
          (env.parse_solution (env.generate_response st.messages))).2).get_no_improvement_flag
        env.feedback_measure) = false) :
    iterStep env problem n k st = IterOut.next
      ⟨st.messages ++
          [⟨"assistant", env.generate_response st.messages⟩,
           ⟨"user", "Feedback: " ++ env.format_feedback
             (env.validate_solution problem
               (env.parse_solution (env.generate_response st.messages))).2⟩],
        st.trend.update_feedback
          (env.validate_solution problem
            (env.parse_solution (env.generate_response st.messages))).2,
        st.s1_time + env.s1_duration k⟩ := by
  unfold iterStep
  simp only [h, if_false, hesc, Bool.false_eq_true]

/-- With fuel consistent with the loop counter (`iteration + fuel = n`) and
at least one iteration allowed, every run of the loop ends solved: the body
either accepts, escalates, or recurses, and on the final allowed iteration
refining further is impossible. -/
theorem solveLoop_solved_of_consistent (env : SolveEnv P S F M) (problem : P) (n : Nat)
    (mem : List (String × String)) :
    ∀ fuel iteration st, 1 ≤ fuel → iteration + fuel = n →
      (solveLoop env problem n mem fuel iteration st).solved = true := by
  intro fuel
  induction fuel with
  | zero => intro iteration st h1 _; omega
  | succ f ih =>
    intro iteration st _ h2
    cases h3 : iterStep env problem n (iteration + 1) st with
    | s1Done s s1t => simp [solveLoop, h3]
    | s2Escalate s1t => simp [solveLoop, h3]
    | next st1 =>
      cases f with
      | zero =>
        have hn : iteration + 1 = n := by omega
        rw [hn] at h3
        exact absurd h3 (iterStep_at_max_not_next env problem n st st1)
      | succ f1 =>
        simp only [solveLoop, h3]
        exact ih (iteration + 1) st1 (by omega) (by omega)

/-- Full run invariants of the loop, by induction on the fuel: tier
exclusivity, `solved` as the disjunction of the tiers, `s2_time` zero unless
S2 ran, one S1 call per iteration, at most one S2 call, and the iteration
counter bounded by the remaining fuel. -/
theorem solveLoop_run_invariants (env : SolveEnv P S F M) (problem : P) (n : Nat)
    (mem : List (String × String)) :
    ∀ fuel iteration st,
      ((solveLoop env problem n mem fuel iteration st).s1_solved = true →
        (solveLoop env problem n mem fuel iteration st).s2_solved = false) ∧
      (solveLoop env problem n mem fuel iteration st).solved =
        ((solveLoop env problem n mem fuel iteration st).s1_solved ||
         (solveLoop env problem n mem fuel iteration st).s2_solved) ∧
      ((solveLoop env problem n mem fuel iteration st).s1_solved = true →
        (solveLoop env problem n mem fuel iteration st).s2_time = 0) ∧
      (solveLoop env problem n mem fuel iteration st).s1_calls =
        (solveLoop env problem n mem fuel iteration st).iterations ∧
      (solveLoop env problem n mem fuel iteration st).s2_calls ≤ 1 ∧
      (solveLoop env problem n mem fuel iteration st).iterations ≤ iteration + fuel := by
  intro fuel
  induction fuel with
  | zero => intro iteration st; simp [solveLoop]
  | succ f ih =>
    intro iteration st
    cases h3 : iterStep env problem n (iteration + 1) st with
    | s1Done s s1t => simp [solveLoop, h3]
    | s2Escalate s1t => simp [solveLoop, h3]
    | next st1 =>
      simp only [solveLoop, h3]
      refine ⟨(ih (iteration + 1) st1).1, (ih (iteration + 1) st1).2.1,
        (ih (iteration + 1) st1).2.2.1, (ih (iteration + 1) st1).2.2.2.1,
        (ih (iteration + 1) st1).2.2.2.2.1, ?_⟩
      have := (ih (iteration + 1) st1).2.2.2.2.2
      omega

end StepLemmas

section MoreLemmas

variable {P S F M : Type}

/-- When validation rejects the parsed solution, the iteration cannot exit
with an S1 success. -/
theorem iterStep_invalid_not_s1Done (env : SolveEnv P S F M) (problem : P) (n k : Nat)
    (st : LoopState F)
    (h : (env.validate_solution problem
      (env.parse_solution (env.generate_response st.messages))).1 = false)
    (s : S) (t : Nat) :
    iterStep env problem n k st ≠ IterOut.s1Done s t := by
  unfold iterStep
  simp only [h, if_false, Bool.false_eq_true]
  split <;> simp

/-- When validation rejects every solution, every sufficiently fueled run of
the loop ends in escalation: S2 solved it, S1 did not, and exactly one S2
call was made. -/
theorem solveLoop_allfail (env : SolveEnv P S F M) (problem : P) (n : Nat)
    (mem : List (String × String))
    (hfail : ∀ sol, (env.validate_solution problem sol).1 = false) :
    ∀ fuel iteration st, 1 ≤ fuel → iteration + fuel = n →
      (solveLoop env problem n mem fuel iteration st).s2_solved = true ∧
      (solveLoop env problem n mem fuel iteration st).s1_solved = false ∧
      (solveLoop env problem n mem fuel iteration st).s2_calls = 1 := by
  intro fuel
  induction fuel with
  | zero => intro iteration st h1 _; omega
  | succ f ih =>
    intro iteration st _ h2
    cases h3 : iterStep env problem n (iteration + 1) st with
    | s1Done s s1t =>
      exact absurd h3 (iterStep_invalid_not_s1Done env problem n (iteration + 1) st
        (hfail _) s s1t)
    | s2Escalate s1t => simp [solveLoop, h3]
    | next st1 =>
      cases f with
      | zero =>
        have hn : iteration + 1 = n := by omega
        rw [hn] at h3
        exact absurd h3 (iterStep_at_max_not_next env problem n st st1)
      | succ f1 =>
        simp only [solveLoop, h3]
        exact ih (iteration + 1) st1 (by omega) (by omega)

/-- Folding the line processor over lines none of which match the
`(vertex color)` pattern leaves the accumulator unchanged. -/
theorem foldl_applyLine_of_none :
    ∀ (ls : List String) (acc : List (String × Nat)),
      (∀ l ∈ ls, GraphColoring.parseLine l = none) →
      ls.foldl GraphColoring.applyLine acc = acc := by
  intro ls
  induction ls with
  | nil => intro acc _; rfl
  | cons head tail ih =>
    intro acc h
    have hh : GraphColoring.parseLine head = none := h head (by simp)
    have ht : ∀ l ∈ tail, GraphColoring.parseLine l = none := fun l hl => h l (by simp [hl])
    simp only [List.foldl_cons, GraphColoring.applyLine, hh]
    exact ih acc ht

end MoreLemmas

section Claims

variable {P S F M : Type}

/-- C1: if the refinement loop is still running when entering iteration
`k + 1 ≤ max_iterations` and System 1's parsed solution is accepted by
`validate_solution` there, then `MCModule.solve` returns `solved = true`,
`s1_solved = true` (and not S2), `iterations = k + 1`, and episodic memory
gains exactly one new entry pairing the problem representation with the
accepted solution's representation. -/
theorem C1_s1_acceptance_outcome (env : SolveEnv P S F M) (problem : P)
    (memory : List (String × String)) (n k : Nat) (st : LoopState F)
    (hreach : stateAt env problem memory n k = some st)
    (hle : k + 1 ≤ n)
    (hvalid : (env.validate_solution problem
      (env.parse_solution (env.generate_response st.messages))).1 = true) :
    (MCModule.solve env problem memory n).solved = true ∧
    (MCModule.solve env problem memory n).s1_solved = true ∧
    (MCModule.solve env problem memory n).s2_solved = false ∧
    (MCModule.solve env problem memory n).iterations = k + 1 ∧
    (MCModule.solve env problem memory n).memory =
      add_memory memory (env.get_problem_representation problem)
        (env.format_solution_for_memory
          (env.parse_solution (env.generate_response st.messages))) := by
  have hk : k < n := hle
  rw [solve_eq_solveLoop_of_stateAt env problem memory n k st hreach hk]
  have hsub : n - k = (n - (k + 1)) + 1 := by omega
  rw [hsub]
  simp only [solveLoop, iterStep_valid_eq env problem n (k + 1) st hvalid]
  exact ⟨trivial, trivial, trivial, trivial, trivial⟩

/-- Witness for C1 at a concrete environment: validation accepts the very
first S1 solution, so `solve` reports an S1 success after one iteration. -/
theorem C1_s1_acceptance_outcome_witness :
    (MCModule.solve envAccept () [] 1).s1_solved = true ∧
    (MCModule.solve envAccept () [] 1).iterations = 1 := by
  have h := C1_s1_acceptance_outcome envAccept () [] 1 0 (initState envAccept () [])
    rfl (by decide) (by decide)
  exact ⟨h.2.1, h.2.2.2.1⟩

/-- C4 counterexample: with `max_iterations = 0` (a value the claim
quantifies over) no collaborator is ever invoked, nothing can raise, and yet
`solve` returns with `solved = false` — the FAILED outcome is reachable. -/
theorem C4_counterexample :
    (MCModule.solve envReject () [] 0).solved = false ∧
    (MCModule.solve envReject () [] 0).s1_solved = false ∧
    (MCModule.solve envReject () [] 0).s2_solved = false ∧
    (MCModule.solve envReject () [] 0).iterations = 0 ∧
    (MCModule.solve envReject () [] 0).s1_calls = 0 ∧
    (MCModule.solve envReject () [] 0).s2_calls = 0 := by
  decide

/-- C4 (amended): for every environment, problem and memory, and every
`max_iterations ≥ 1`, `MCModule.solve` never returns `solved = false`: once
at least one iteration is allowed, the final allowed iteration either
accepts or escalates, so the FAILED outcome is unreachable. -/
theorem C4_no_failed_outcome (env : SolveEnv P S F M) (problem : P)
    (memory : List (String × String)) (n : Nat) (hn : 1 ≤ n) :
    (MCModule.solve env problem memory n).solved = true := by
  unfold MCModule.solve
  exact solveLoop_solved_of_consistent env problem n memory n 0
    (initState env problem memory) hn (by omega)

/-- Witness for C4 (amended) at a concrete always-rejecting environment. -/
theorem C4_no_failed_outcome_witness :
    (MCModule.solve envReject () [] 2).solved = true :=
  C4_no_failed_outcome envReject () [] 2 (by decide)

/-- C5: for every environment, problem, memory and `max_iterations`,
`MCModule.solve` performs at most `max_iterations` refinement iterations,
issues exactly one S1 agent call per iteration (hence at most
`max_iterations` S1 calls), and invokes the S2 solver at most once.
Termination itself is by construction: `solveLoop` is structurally
recursive on its fuel. -/
theorem C5_termination_and_call_budget (env : SolveEnv P S F M) (problem : P)
    (memory : List (String × String)) (n : Nat) :
    (MCModule.solve env problem memory n).iterations ≤ n ∧
    (MCModule.solve env problem memory n).s1_calls =
      (MCModule.solve env problem memory n).iterations ∧
    (MCModule.solve env problem memory n).s1_calls ≤ n ∧
    (MCModule.solve env problem memory n).s2_calls ≤ 1 := by
  unfold MCModule.solve
  have h := solveLoop_run_invariants env problem n memory n 0 (initState env problem memory)
  have h1 := h.2.2.2.1
  have h2 := h.2.2.2.2.1
  have h3 := h.2.2.2.2.2
  exact ⟨by omega, h1, by omega, h2⟩

/-- C10: every outcome of `MCModule.solve` satisfies the result-shape
invariants: `s1_solved` and `s2_solved` are never both true, `solved` is
their disjunction, and an S1 success leaves `s2_time = 0`. -/
theorem C10_outcome_invariants (env : SolveEnv P S F M) (problem : P)
    (memory : List (String × String)) (n : Nat) :
    ((MCModule.solve env problem memory n).s1_solved = true →
      (MCModule.solve env problem memory n).s2_solved = false) ∧
    (MCModule.solve env problem memory n).solved =
      ((MCModule.solve env problem memory n).s1_solved ||
       (MCModule.solve env problem memory n).s2_solved) ∧
    ((MCModule.solve env problem memory n).s1_solved = true →
      (MCModule.solve env problem memory n).s2_time = 0) := by
  unfold MCModule.solve
  have h := solveLoop_run_invariants env problem n memory n 0 (initState env problem memory)
  exact ⟨h.1, h.2.1, h.2.2.1⟩

/-- Witness for C10 at a concrete environment and input. -/
theorem C10_outcome_invariants_witness :
    ((MCModule.solve envAccept () [] 1).s1_solved = true →
      (MCModule.solve envAccept () [] 1).s2_solved = false) ∧
    (MCModule.solve envAccept () [] 1).solved =
      ((MCModule.solve envAccept () [] 1).s1_solved ||
       (MCModule.solve envAccept () [] 1).s2_solved) ∧
    ((MCModule.solve envAccept () [] 1).s1_solved = true →
      (MCModule.solve envAccept () [] 1).s2_time = 0) :=
  C10_outcome_invariants envAccept () [] 1

end Claims

section Claims2

variable {P S F M : Type}

/-- C2: when validation never accepts (regardless of what the Trend
Evaluator signals, since the environment's badness measure is arbitrary),
escalation is unconditional: on the final allowed iteration the loop body
can only escalate (the `iteration == max_iterations` disjunct
short-circuits the trend signal), the overall run is solved by S2 and not by
S1 with exactly one S2 call within `max_iterations` iterations, and with
`max_iterations = 1` there is exactly one S1 agent call followed by
escalation, with `iterations = 1`. -/
theorem C2_unconditional_escalation (env : SolveEnv P S F M) (problem : P)
    (memory : List (String × String)) (n : Nat) (hn : 1 ≤ n)
    (hfail : ∀ sol, (env.validate_solution problem sol).1 = false) :
    (∀ st : LoopState F, iterStep env problem n n st =
      IterOut.s2Escalate (st.s1_time + env.s1_duration n)) ∧
    (MCModule.solve env problem memory n).s2_solved = true ∧
    (MCModule.solve env problem memory n).s1_solved = false ∧
    (MCModule.solve env problem memory n).solved = true ∧
    (MCModule.solve env problem memory n).s2_calls = 1 ∧
    (MCModule.solve env problem memory n).iterations ≤ n ∧
    (n = 1 → (MCModule.solve env problem memory n).iterations = 1 ∧
      (MCModule.solve env problem memory n).s1_calls = 1) := by
  have hstep : ∀ st : LoopState F, iterStep env problem n n st =
      IterOut.s2Escalate (st.s1_time + env.s1_duration n) := by
    intro st
    exact iterStep_invalid_escalate_eq env problem n n st (hfail _) (by simp)
  have hall := solveLoop_allfail env problem n memory hfail n 0
    (initState env problem memory) hn (by omega)
  have hinv := solveLoop_run_invariants env problem n memory n 0
    (initState env problem memory)
  have hiter := hinv.2.2.2.2.2
  have hcalls := hinv.2.2.2.1
  have hsolved := solveLoop_solved_of_consistent env problem n memory n 0
    (initState env problem memory) hn (by omega)
  refine ⟨hstep, hall.1, hall.2.1, hsolved, hall.2.2, by
    unfold MCModule.solve; omega, ?_⟩
  intro h1
  subst h1
  have h2 := hstep (initState env problem memory)
  unfold MCModule.solve
  simp only [solveLoop, Nat.zero_add, h2]
  exact ⟨trivial, trivial⟩

/-- Witness for C2: a concrete always-rejecting environment with
`max_iterations = 1` makes one S1 call, escalates, and reports tier S2. -/
theorem C2_unconditional_escalation_witness :
    (MCModule.solve envReject () [] 1).s2_solved = true ∧
    (MCModule.solve envReject () [] 1).iterations = 1 ∧
    (MCModule.solve envReject () [] 1).s1_calls = 1 ∧
    (MCModule.solve envReject () [] 1).s2_calls = 1 := by
  have h := C2_unconditional_escalation envReject () [] 1 (by decide) (fun _ => rfl)
  exact ⟨h.2.1, (h.2.2.2.2.2.2 rfl).1, (h.2.2.2.2.2.2 rfl).2, h.2.2.2.2.1⟩

/-- C3: whenever escalation occurs (the loop is still running entering
iteration `k + 1 ≤ max_iterations`, validation rejects there, and the
escalation test fires), the Controller takes the domain's S2 result — an
invocation on the problem alone — as the final solution without
re-validating it: the outcome is `solved = true`, `s2_solved = true`, the
S2 solution's representation is written to episodic memory, and this holds
even when that solution would fail `validate_solution`.  Moreover the
graph-coloring S2 solver builds its prompt with no episodic-memory examples
(`episodic_examples = none`) and parses the response with the same solution
format as S1. -/
theorem C3_escalated_result_is_terminal (env : SolveEnv P S F M) (problem : P)
    (memory : List (String × String)) (n k : Nat) (st : LoopState F)
    (hreach : stateAt env problem memory n k = some st)
    (hle : k + 1 ≤ n)
    (hinvalid : (env.validate_solution problem
      (env.parse_solution (env.generate_response st.messages))).1 = false)
    (hesc : ((k + 1 == n) || (st.trend.update_feedback
        (env.validate_solution problem
          (env.parse_solution (env.generate_response st.messages))).2).get_no_improvement_flag
        env.feedback_measure) = true) :
    (MCModule.solve env problem memory n).solved = true ∧
    (MCModule.solve env problem memory n).s2_solved = true ∧
    (MCModule.solve env problem memory n).s1_solved = false ∧
    (MCModule.solve env problem memory n).solution = some (env.run_s2_solver problem).1 ∧
    (MCModule.solve env problem memory n).memory =
      add_memory memory (env.get_problem_representation problem)
        (env.format_solution_for_memory (env.run_s2_solver problem).1) ∧
    ((env.validate_solution problem (env.run_s2_solver problem).1).1 = false →
      (MCModule.solve env problem memory n).solved = true) ∧
    (∀ (pg : String → Nat → Option (List (String × String)) → String)
       (q : GraphColoring.GraphColoringProblem) (client : List Msg → String),
       GraphColoring.run_s2_solver pg q client =
         (GraphColoring.parse_solution (client [⟨"user", pg q.graph_repr q.min_colors none⟩]),
          GraphColoring.maxColorUsed
            (GraphColoring.parse_solution (client [⟨"user", pg q.graph_repr q.min_colors none⟩])))) := by
  have hk : k < n := hle
  rw [solve_eq_solveLoop_of_stateAt env problem memory n k st hreach hk]
  have hsub : n - k = (n - (k + 1)) + 1 := by omega
  rw [hsub]
  simp only [solveLoop, iterStep_invalid_escalate_eq env problem n (k + 1) st hinvalid hesc]
  refine ⟨trivial, trivial, trivial, trivial, trivial, fun _ => trivial, ?_⟩
  intro pg q client
  rfl

/-- Witness for C3: a concrete always-rejecting environment with
`max_iterations = 1` escalates on iteration 1 and takes the S2 solution
(which itself fails validation) as final. -/
theorem C3_escalated_result_is_terminal_witness :
    (MCModule.solve envReject () [] 1).solved = true ∧
    (MCModule.solve envReject () [] 1).s2_solved = true ∧
    (MCModule.solve envReject () [] 1).solution = some 7 ∧
    (MCModule.solve envReject () [] 1).memory = add_memory [] "p" "7" := by
  have h := C3_escalated_result_is_terminal envReject () [] 1 0 (initState envReject () [])
    rfl (by decide) (by decide) (by decide)
  exact ⟨h.1, h.2.1, h.2.2.2.1, h.2.2.2.2.1⟩

end Claims2

section Claims3

/-- C6: `validate_code_with_leetcode` never propagates an exception: each
fault — missing `LEETCODE_SESSION` (the `EnvironmentError`), failed tester
import, or an exception raised by the judge call itself — is returned as
`(False, feedback-dict)` whose dict carries the error text and a status
message, so the Controller sees an ordinary invalid result and its loop
continues or escalates as usual. -/
theorem C6_validator_absorbs_faults (w : CodeDebugging.LeetCodeWorld)
    (code task_id language : String) :
    (w.tester_cached = false → w.session_set = false →
      CodeDebugging.validate_code_with_leetcode w code task_id language =
        (false, .errorDict CodeDebugging.envErrorMessage "Environment Error")) ∧
    (w.tester_cached = false → w.session_set = true → w.tester_imported = false →
      CodeDebugging.validate_code_with_leetcode w code task_id language =
        (false, .errorDict CodeDebugging.importErrorMessage "Validation Error")) ∧
    (∀ e : String, CodeDebugging.get_leetcode_tester w = .tester →
      w.test code task_id language = .raised e →
      CodeDebugging.validate_code_with_leetcode w code task_id language =
        (false, .errorDict e "Validation Error")) := by
  refine ⟨?_, ?_, ?_⟩
  · intro h1 h2
    unfold CodeDebugging.validate_code_with_leetcode CodeDebugging.get_leetcode_tester
    simp [h1, h2]
  · intro h1 h2 h3
    unfold CodeDebugging.validate_code_with_leetcode CodeDebugging.get_leetcode_tester
    simp [h1, h2, h3]
  · intro e h1 h2
    unfold CodeDebugging.validate_code_with_leetcode
    rw [h1, h2]

/-- Witness for C6 at three concrete worlds: no session cookie, failed
import, and a judge call that raises. -/
theorem C6_validator_absorbs_faults_witness :
    CodeDebugging.validate_code_with_leetcode worldNoSession "code" "two-sum" "python" =
      (false, .errorDict CodeDebugging.envErrorMessage "Environment Error") ∧
    CodeDebugging.validate_code_with_leetcode worldNoImport "code" "two-sum" "python" =
      (false, .errorDict CodeDebugging.importErrorMessage "Validation Error") ∧
    CodeDebugging.validate_code_with_leetcode worldRaises "code" "two-sum" "python" =
      (false, .errorDict "connection timeout" "Validation Error") := by
  refine ⟨?_, ?_, ?_⟩
  · exact (C6_validator_absorbs_faults worldNoSession "code" "two-sum" "python").1 rfl rfl
  · exact (C6_validator_absorbs_faults worldNoImport "code" "two-sum" "python").2.1 rfl rfl rfl
  · exact (C6_validator_absorbs_faults worldRaises "code" "two-sum" "python").2.2
      "connection timeout" rfl rfl

/-- C7: parse faults stay in-loop.  (1) The graph-coloring parser returns
the empty dict — without raising — when no line of the response matches the
`(vertex color)` pattern.  (2) The code-debugging parser is total and, with
no code markers present, falls back to the stripped response string.
(3) In the Controller's loop, a sentinel parse whose validation rejects
with feedback formatting to "no solution found" makes the iteration proceed
exactly as for a failed validation: the conversation grows by the response
and the feedback turn and refinement continues. -/
theorem C7_parse_fault_stays_in_loop :
    (∀ response : String,
      (∀ line ∈ (pySplit (pyStrip response) "\n").map pyStrip,
        GraphColoring.parseLine line = none) →
      GraphColoring.parse_solution response = []) ∧
    (∀ r : String, CodeDebugging.extractBetween r "<code>" "</code>" = none →
      CodeDebugging.containsSub r "```python" = false →
      CodeDebugging.containsSub r "```" = false →
      CodeDebugging.parse_fixed_code r = pyStrip r) ∧
    (∀ (F M : Type) (env : SolveEnv GraphColoring.GraphColoringProblem
        (List (String × Nat)) F M)
       (problem : GraphColoring.GraphColoringProblem) (n k : Nat) (st : LoopState F),
       env.parse_solution = GraphColoring.parse_solution →
       (∀ line ∈ (pySplit (pyStrip (env.generate_response st.messages)) "\n").map pyStrip,
         GraphColoring.parseLine line = none) →
       (env.validate_solution problem []).1 = false →
       env.format_feedback (env.validate_solution problem []).2 = "no solution found" →
       ((k == n) || (st.trend.update_feedback
           (env.validate_solution problem []).2).get_no_improvement_flag
           env.feedback_measure) = false →
       iterStep env problem n k st = IterOut.next
         ⟨st.messages ++
             [⟨"assistant", env.generate_response st.messages⟩,
              ⟨"user", "Feedback: no solution found"⟩],
           st.trend.update_feedback (env.validate_solution problem []).2,
           st.s1_time + env.s1_duration k⟩) := by
  refine ⟨?_, ?_, ?_⟩
  · intro response h
    exact foldl_applyLine_of_none _ [] h
  · intro r h1 h2 h3
    unfold CodeDebugging.parse_fixed_code
    rw [h1, h2, h3]
    simp
  · intro F M env problem n k st hps hlines hval hfmt hesc
    have hp : env.parse_solution (env.generate_response st.messages) = [] := by
      rw [hps]
      exact foldl_applyLine_of_none _ [] hlines
    have hstep := iterStep_invalid_next_eq env problem n k st (by rw [hp]; exact hval)
      (by rw [hp]; exact hesc)
    rw [hstep, hp, hfmt]
    rfl

/-- Witness for C7: the real graph-coloring parser on prose returns the
empty dict; the code-debugging parser falls back on prose; and a concrete
loop iteration over the sentinel proceeds to refinement with the "no
solution found" feedback turn appended. -/
theorem C7_parse_fault_stays_in_loop_witness :
    GraphColoring.parse_solution "the graph cannot be colored" = [] ∧
    CodeDebugging.parse_fixed_code "no tags at all" = "no tags at all" ∧
    iterStep gcEnv gcProblem 2 1 ⟨[⟨"user", "x"⟩], ⟨[]⟩, 0⟩ = IterOut.next
      ⟨[⟨"user", "x"⟩, ⟨"assistant", "I cannot color this graph"⟩,
        ⟨"user", "Feedback: no solution found"⟩], ⟨["no solution found"]⟩, 0⟩ := by
  refine ⟨?_, ?_, ?_⟩
  · exact C7_parse_fault_stays_in_loop.1 "the graph cannot be colored" (by decide)
  · exact C7_parse_fault_stays_in_loop.2.1 "no tags at all" (by decide) (by decide) (by decide)
  · exact C7_parse_fault_stays_in_loop.2.2 String Unit gcEnv gcProblem 2 1
      ⟨[⟨"user", "x"⟩], ⟨[]⟩, 0⟩ rfl (by decide) rfl rfl (by decide)

end Claims3

section Claims4

/-- C8 counterexample: the configuration surface actually exposed by
`MCModule` is exactly `domain`, `llm_model`, `max_iterations` and
`s2_llm_model` on the constructor and `problem`, `verbose` on `solve` — no
parameter of either signature mentions memory or examples, so the claimed
caller-settable "number of memory examples to seed (default 3)" does not
exist on the Controller. -/
theorem C8_counterexample :
    MCModuleSig.initParams.map Prod.fst =
      ["domain", "llm_model", "max_iterations", "s2_llm_model"] ∧
    MCModuleSig.solveParams.map Prod.fst = ["problem", "verbose"] ∧
    (∀ p ∈ MCModuleSig.initParams, MCModuleSig.mentionsMemoryExamples p.1 = false) ∧
    (∀ p ∈ MCModuleSig.solveParams, MCModuleSig.mentionsMemoryExamples p.1 = false) := by
  decide

/-- C8 (amended): the Controller's configuration surface is the domain
(required), the S1 model identifier `llm_model` (default "mistral"), the
maximum refinement iterations (default 5), the S2 model identifier
`s2_llm_model` (optional, falling back to the S1 model), and the verbose
flag on `solve` (default true); the number of memory examples to seed is not
caller-settable through `MCModule`. -/
theorem C8_configuration_surface :
    MCModuleSig.initParams =
      [("domain", false), ("llm_model", true), ("max_iterations", true),
       ("s2_llm_model", true)] ∧
    MCModuleSig.llm_model_default = "mistral" ∧
    MCModuleSig.max_iterations_default = 5 ∧
    MCModuleSig.solveParams = [("problem", false), ("verbose", true)] ∧
    MCModuleSig.verbose_default = true ∧
    (¬ ∃ p ∈ MCModuleSig.initParams, MCModuleSig.mentionsMemoryExamples p.1 = true) := by
  decide

/-- C9: behaviour of the Trend Evaluator's `no_improvement` signal within a
single solve attempt, for any badness measure: with fewer than two recorded
samples (empty history or a single sample) it returns false; after two
identical consecutive samples it returns true; and when the latest sample
shows strictly fewer violations (strictly smaller badness) than the previous
one it returns false. -/
theorem C9_trend_evaluator_signal (F : Type) (measure : F → Nat)
    (hist : List F) (a b : F) (hlt : measure b < measure a) :
    ImprovementTrendEvaluator.get_no_improvement_flag measure ⟨[]⟩ = false ∧
    (∀ x : F, ImprovementTrendEvaluator.get_no_improvement_flag measure ⟨[x]⟩ = false) ∧
    ImprovementTrendEvaluator.get_no_improvement_flag measure ⟨hist ++ [a, a]⟩ = true ∧
    ImprovementTrendEvaluator.get_no_improvement_flag measure ⟨hist ++ [a, b]⟩ = false := by
  refine ⟨rfl, fun x => rfl, ?_, ?_⟩
  · simp [ImprovementTrendEvaluator.get_no_improvement_flag, List.reverse_append]
  · simp [ImprovementTrendEvaluator.get_no_improvement_flag, List.reverse_append]
    omega

/-- Witness for C9 with the size measure on lists of violations: identical
consecutive samples flag stagnation, a strict improvement does not, and
short histories never flag. -/
theorem C9_trend_evaluator_signal_witness :
    ImprovementTrendEvaluator.get_no_improvement_flag
      (fun l : List Nat => l.length) ⟨[]⟩ = false ∧
    ImprovementTrendEvaluator.get_no_improvement_flag
      (fun l : List Nat => l.length) ⟨[[1, 2], [1, 2]]⟩ = true ∧
    ImprovementTrendEvaluator.get_no_improvement_flag
      (fun l : List Nat => l.length) ⟨[[1, 2], [1]]⟩ = false := by
  have h := C9_trend_evaluator_signal (List Nat) (fun l : List Nat => l.length) [] [1, 2] [1]
    (by decide)
  exact ⟨h.1, h.2.2.1, h.2.2.2⟩

end Claims4
